import Mathlib

/-
Shallow embedding of src/client/src/main.rs from Lytigas/rust-web-experiments.

The Rust source is:

  fn main() {
      yew::initialize();
      App::<Model>::new().mount_to_body();
      yew::run_loop();
  }

Each framework call is embedded as a transformer on an explicit world state
that also emits the list of observable events it performs.  The world carries
the framework runtime state, the ambient external inputs (command-line
arguments, environment variables, files, network, persisted state) and an
abstract "rest of the state" component used to express frame conditions.
The event vocabulary also contains constructors for operations that the
source could in principle perform (spawning tasks, taking locks, reading
external input, reporting an error) so that their absence is a real,
decidable statement about the emitted trace rather than a vacuity.
-/

namespace RustWeb

/-- The root component type.  `Model` is the opaque root UI component that the
`client` crate exports; its internals are out of scope, so it is a single
atom here. -/
inductive Component where
  | Model
deriving DecidableEq, Repr

/-- Observable events a run of the program can emit.  `initRuntime`, `mount`
and `runLoop` correspond to the three framework calls in the source; the
remaining constructors are operations the source could have performed but
does not, so that their absence from the trace is a meaningful statement. -/
inductive Event where
  | initRuntime
  | mount (c : Component)
  | runLoop
  | spawnTask
  | acquireLock
  | readArg
  | readEnvVar
  | readFile
  | readNetwork
  | readPersisted
  | reportError
deriving DecidableEq, Repr

/-- The framework runtime state touched by the three calls: whether the
runtime has been set up, which components have been mounted to the document
body (in order), and whether the event loop has been entered. -/
structure YewRuntime where
  inited : Bool
  mounted : List Component
  looping : Bool
deriving Repr

/-- External inputs available to a process: command-line arguments,
environment variables, a file system, network data and persisted state.
The source never reads any of these. -/
structure ExternalInput where
  args : List String
  envVars : List (String × String)
  files : String → Option String
  network : List String
  persisted : Option String

/-- The full world state: framework runtime state, the ambient external
inputs, and an abstract remainder `rest` standing for every other part of
the program state. -/
structure World (σ : Type) where
  yew : YewRuntime
  input : ExternalInput
  rest : σ

/-- Embedding of the first call in `main`: the framework runtime setup call
(the source line reading `yew` dot `initialize()`).  It marks the runtime as
set up and emits one `initRuntime` event. -/
def yewInit {σ : Type} (w : World σ) : World σ × List Event :=
  ({ w with yew := { w.yew with inited := true } }, [Event.initRuntime])

/-- Embedding of `App` construction (`App::<Model>::new()`): an `App` is a
handle holding its root component. -/
structure App where
  root : Component
deriving DecidableEq, Repr

/-- Embedding of `App::new`. -/
def App.new (c : Component) : App :=
  App.mk c

/-- Embedding of `mount_to_body`: appends the app root component to the
list of components mounted on the document body and emits one `mount`
event. -/
def App.mount_to_body {σ : Type} (a : App) (w : World σ) : World σ × List Event :=
  ({ w with yew := { w.yew with mounted := w.yew.mounted ++ [a.root] } },
   [Event.mount a.root])

/-- Embedding of the third call in `main` (`yew` dot `run_loop()`): records
that the event loop has been entered and emits one `runLoop` event.  After
this call the source performs nothing further; control rests with the host
event dispatch. -/
def run_loop {σ : Type} (w : World σ) : World σ × List Event :=
  ({ w with yew := { w.yew with looping := true } }, [Event.runLoop])

/-- Embedding of `fn main()`: the three framework calls in source order,
with their emitted events concatenated.  The Rust `main` takes no
parameters and returns unit; its only effect is the state change and the
event trace, which this definition makes explicit. -/
def main {σ : Type} (w : World σ) : World σ × List Event :=
  let s1 := yewInit w
  let s2 := (App.new Component.Model).mount_to_body s1.1
  let s3 := run_loop s2.1
  (s3.1, s1.2 ++ s2.2 ++ s3.2)

/-- The trace `main` emits from a given starting world. -/
def mainTrace {σ : Type} (w : World σ) : List Event :=
  (main w).2

/-- Whether an event is a mount of some component. -/
def isMountEvent : Event → Bool
  | Event.mount _ => true
  | _ => false

/-- Whether an event reads external input (arguments, environment, files,
network or persisted state). -/
def isInputRead : Event → Bool
  | Event.readArg => true
  | Event.readEnvVar => true
  | Event.readFile => true
  | Event.readNetwork => true
  | Event.readPersisted => true
  | _ => false

/-- Whether an event is a concurrency operation (spawning a task or taking
a lock). -/
def isConcurrencyOp : Event → Bool
  | Event.spawnTask => true
  | Event.acquireLock => true
  | _ => false

/-- Whether an event is the framework runtime setup event. -/
def isInitEvent : Event → Bool
  | Event.initRuntime => true
  | _ => false

/-- Whether an event reports an error. -/
def isErrorReport : Event → Bool
  | Event.reportError => true
  | _ => false

/-- The fixed bootstrap trace: runtime setup, mount of the root component,
then the run loop. -/
def bootTrace : List Event :=
  [Event.initRuntime, Event.mount Component.Model, Event.runLoop]

/-- A concrete starting world over a trivial remainder type, used to
instantiate universally quantified statements. -/
def w0 : World Unit :=
  { yew := { inited := false, mounted := [], looping := false }
    input :=
      { args := []
        envVars := []
        files := fun _ => none
        persisted := none
        network := [] }
    rest := () }

/-- C1: from every starting world, the whole observable behavior of `main`
is exactly the three sequential framework calls — runtime setup, mounting
the root component, entering the run loop — in that order, with no
branching and no other operation. -/
theorem C1_main_is_three_sequential_calls (σ : Type) (w : World σ) :
    mainTrace w = bootTrace := by
  rfl

/-- C2: in every execution of `main`, the mount of the root component
occurs strictly before the run loop is entered: both events are in the
trace and the first occurrence of the mount precedes the first occurrence
of the run loop. -/
theorem C2_mount_before_run_loop (σ : Type) (w : World σ) :
    Event.mount Component.Model ∈ mainTrace w ∧
    Event.runLoop ∈ mainTrace w ∧
    (mainTrace w).indexOf (Event.mount Component.Model) <
      (mainTrace w).indexOf Event.runLoop := by
  have h : mainTrace w = bootTrace := rfl
  rw [h]
  decide

/-- C3: in every execution of `main`, the framework runtime setup call
occurs strictly before the root component is constructed and mounted:
both events are in the trace and the first occurrence of the runtime setup
precedes the first occurrence of the mount. -/
theorem C3_init_before_mount (σ : Type) (w : World σ) :
    Event.initRuntime ∈ mainTrace w ∧
    Event.mount Component.Model ∈ mainTrace w ∧
    (mainTrace w).indexOf Event.initRuntime <
      (mainTrace w).indexOf (Event.mount Component.Model) := by
  have h : mainTrace w = bootTrace := rfl
  rw [h]
  decide

/-- C4: `main` mounts exactly one root view instance, and it is of type
`Model`: the trace contains exactly one mount event, and filtering the
trace to the mount events yields exactly the single mount of `Model`. -/
theorem C4_exactly_one_mount_of_Model (σ : Type) (w : World σ) :
    (mainTrace w).countP isMountEvent = 1 ∧
    (mainTrace w).filter isMountEvent = [Event.mount Component.Model] := by
  have h : mainTrace w = bootTrace := rfl
  rw [h]
  decide

/-- C5: after `main` enters the run loop it performs no further
operations: whenever the trace splits as a prefix, the run-loop event and
a suffix, the suffix is empty. -/
theorem C5_nothing_after_run_loop (σ : Type) (w : World σ)
    (l₁ l₂ : List Event) (h : mainTrace w = l₁ ++ Event.runLoop :: l₂) :
    l₂ = [] := by
  have h2 : mainTrace w = bootTrace := rfl
  rw [h2] at h
  rcases l₁ with _ | ⟨a, _ | ⟨b, _ | ⟨c, l⟩⟩⟩ <;> simp_all [bootTrace]

/-- Witness for C5 at the concrete world `w0`, with the concrete split of
the trace before the run-loop event. -/
theorem C5_nothing_after_run_loop_witness :
    mainTrace w0 =
      [Event.initRuntime, Event.mount Component.Model] ++
        Event.runLoop :: ([] : List Event) ∧
    ([] : List Event) = [] :=
  ⟨rfl,
   C5_nothing_after_run_loop Unit w0
     [Event.initRuntime, Event.mount Component.Model] [] rfl⟩

/-- C6: all three bootstrap calls are treated as infallible at this call
site: the trace holds exactly the three calls, never an error report, and
`main` is a total function of the world, with no failure path. -/
theorem C6_no_error_handling (σ : Type) (w : World σ) :
    (mainTrace w).countP isErrorReport = 0 ∧ mainTrace w = bootTrace := by
  have h : mainTrace w = bootTrace := rfl
  rw [h]
  exact ⟨rfl, rfl⟩

/-- C7: the behavior of `main` is independent of all external input: the
trace reads no argument, environment variable, file, network data or
persisted state, and any two runs, from any two worlds over any remainder
types, emit the identical sequence of calls. -/
theorem C7_input_independence (σ₁ σ₂ : Type) (w₁ : World σ₁) (w₂ : World σ₂) :
    mainTrace w₁ = mainTrace w₂ ∧
    (mainTrace w₁).countP isInputRead = 0 :=
  ⟨rfl, rfl⟩

/-- C8: `main` spawns no concurrent task and takes no lock: the trace
contains no concurrency operation. -/
theorem C8_no_concurrency_ops (σ : Type) (w : World σ) :
    (mainTrace w).countP isConcurrencyOp = 0 :=
  rfl

/-- C9: in every run the framework runtime setup call happens exactly
once, and no other operation precedes it: it occurs once in the trace and
is the very first event. -/
theorem C9_init_once_and_first (σ : Type) (w : World σ) :
    (mainTrace w).countP isInitEvent = 1 ∧
    (mainTrace w).head? = some Event.initRuntime := by
  have h : mainTrace w = bootTrace := rfl
  rw [h]
  exact ⟨rfl, rfl⟩

/-- C10: `main` mutates no program state other than through the three
framework calls: the `rest` of the world and the external inputs are
returned unchanged, and the framework state it produces is exactly the
input framework state with the runtime set up, `Model` appended to the
mounted components, and the loop entered. -/
theorem C10_frame_condition (σ : Type) (w : World σ) :
    ((main w).1).rest = w.rest ∧
    ((main w).1).input = w.input ∧
    ((main w).1).yew =
      { inited := true
        mounted := w.yew.mounted ++ [Component.Model]
        looping := true } :=
  ⟨rfl, rfl, rfl⟩

end RustWeb
